import Mathlib

/-!
Shallow embedding of the TreatInk personalization SDK
(src/treatink.v1.2.0.js) and proofs about its session lifecycle,
message handling, cart injection and order confirmation.

Modelling conventions:
- localStorage under the single storage key is modelled by `RawStorage`:
  the key may be absent, hold malformed JSON (`corrupt`, on which
  JSON.parse throws inside the try blocks of the source), or hold a
  well-formed object keyed by productId (`valid`).
- DOM and callback effects are recorded in `WidgetState` fields
  (modal visibility, iframe src, button state, the list of payloads
  passed to onPersonalizationComplete, counters for the close callback
  and for window.alert).
- The two network calls are modelled by passing the response of the
  single round trip as an explicit argument (`CreateSessionResponse`,
  `ConfirmOrderResponse`); a non-2xx response or transport failure is
  the `networkError` constructor, matching the thrown Error of the
  source.
- Timestamps (new Date().toISOString()) are opaque `Nat` arguments.
- URLSearchParams percent-encoding and the exact JSON.stringify text
  are elided: URLs and the generic-cart value are built by plain
  concatenation, which is injective in the fields and irrelevant to
  the claims proved here.
-/

namespace TreatInk

/-- A personalization session record as created by
createPersonalizationSession and stored in localStorage. -/
structure Session where
  uuid : String
  productId : String
  platform : String
  hostname : String
  createdAt : Nat
  customized : Bool
  customizationData : Option String
  updatedAt : Option Nat

deriving instance DecidableEq, Repr for Session

/-- Lookup in the productId-keyed storage object (sessions[productId]). -/
def storeGet : List (String × Session) → String → Option Session
  | [], _ => none
  | (k, v) :: rest, pid => if k = pid then some v else storeGet rest pid

/-- Assignment sessions[productId] = session on the storage object. -/
def storeSet : List (String × Session) → String → Session → List (String × Session)
  | [], pid, sess => [(pid, sess)]
  | (k, v) :: rest, pid, sess =>
      if k = pid then (k, sess) :: rest else (k, v) :: storeSet rest pid sess

/-- The value stored under the treatink_personalizations key:
absent, malformed JSON, or a well-formed object keyed by productId. -/
inductive RawStorage where
  | absent
  | corrupt
  | valid (sessions : List (String × Session))

deriving instance DecidableEq, Repr for RawStorage

/-- localStorage.getItem followed by JSON.parse: returns none when the
key is absent, the parsed object when well-formed, and throws (error)
on malformed data. -/
def parseStorage : RawStorage → Except String (Option (List (String × Session)))
  | .absent => .ok none
  | .corrupt => .error "SyntaxError: unexpected token in JSON"
  | .valid sessions => .ok (some sessions)

/-- getPersonalizationSession: reads the stored object and returns
sessions[productId] or null; the catch branch turns a parse failure
into null. -/
def getPersonalizationSession (storage : RawStorage) (productId : String) : Option Session :=
  match parseStorage storage with
  | .error _ => none
  | .ok none => none
  | .ok (some sessions) => storeGet sessions productId

/-- savePersonalizationSession: read-modify-write of the stored object;
the catch branch leaves storage unchanged when JSON.parse throws. -/
def savePersonalizationSession (storage : RawStorage) (productId : String)
    (session : Session) : RawStorage :=
  match parseStorage storage with
  | .error _ => storage
  | .ok none => .valid [(productId, session)]
  | .ok (some sessions) => .valid (storeSet sessions productId session)

/-- getAllPersonalizations: the whole stored object, with the catch
branch returning the empty object on malformed data. -/
def getAllPersonalizations (storage : RawStorage) : List (String × Session) :=
  match parseStorage storage with
  | .error _ => []
  | .ok none => []
  | .ok (some sessions) => sessions

/-- clearPersonalizations: localStorage.removeItem on the storage key. -/
def clearPersonalizations (_storage : RawStorage) : RawStorage :=
  .absent

/-- updatePersonalizationSession: fetch the session for the configured
product; if absent do nothing, otherwise set customized, attach the
customization data and refresh updatedAt, then save. -/
def updatePersonalizationSession (storage : RawStorage) (productId : String)
    (data : String) (now : Nat) : RawStorage :=
  match getPersonalizationSession storage productId with
  | none => storage
  | some session =>
      savePersonalizationSession storage productId
        { session with
          customized := true
          customizationData := some data
          updatedAt := some now }

/-- The initialized SDK configuration (the fields the verified
operations consult). Callbacks are modelled by presence flags; their
invocations are recorded in WidgetState. -/
structure Config where
  platform : String
  productId : String
  apiKey : Option String
  hostname : String
  environment : String
  hasOnPersonalizationComplete : Bool
  hasOnPersonalizationClose : Bool

deriving instance DecidableEq, Repr for Config

/-- Observable page state: persisted storage plus the DOM and callback
effects of the widget. completeCalls lists the payload arguments passed
to onPersonalizationComplete, oldest first. -/
structure WidgetState where
  storage : RawStorage
  modalActive : Bool
  bodyOverflowHidden : Bool
  iframeSrc : Option String
  iframeVisible : Bool
  loadingVisible : Bool
  buttonDisabled : Bool
  buttonPersonalized : Bool
  completeCalls : List String
  closeCalls : Nat
  alerts : Nat

deriving instance DecidableEq, Repr for WidgetState

/-- closeCustomizer: hide the modal, restore body overflow, reset the
iframe to about:blank to stop background activity, and fire the
onPersonalizationClose callback when configured. -/
def closeCustomizer (config : Config) (st : WidgetState) : WidgetState :=
  { st with
    modalActive := false
    bodyOverflowHidden := false
    iframeSrc := some "about:blank"
    closeCalls := if config.hasOnPersonalizationClose then st.closeCalls + 1 else st.closeCalls }

/-- The data field of a cross-context message: its type tag, the
payload forwarded on completion, and the error string. An empty type
models a missing or falsy data.type. -/
structure MessageData where
  type : String
  payload : String
  error : String

deriving instance DecidableEq, Repr for MessageData

/-- A window message event: sender origin and optional data (none
models a falsy event.data). -/
structure MessageEvent where
  origin : String
  data : Option MessageData

deriving instance DecidableEq, Repr for MessageEvent

/-- The fixed allow-list of surface origins in handleIframeMessage. -/
def allowedOrigins : List String :=
  ["https://treatink.com",
   "https://sandbox.treatink.com",
   "http://localhost:5173",
   "http://localhost:3000",
   "http://localhost:8080"]

/-- startsWith on strings, modelled structurally on their character
lists so that concrete instances evaluate in the kernel. -/
def strStartsWith (s pre : String) : Bool :=
  pre.data.isPrefixOf s.data

/-- Origin validation: exact match or startsWith against the
allow-list. -/
def isAllowedOrigin (origin : String) : Bool :=
  allowedOrigins.any (fun allowed => origin = allowed || strStartsWith origin allowed)

/-- The four message types the handler recognizes. -/
def recognizedTypes : List String :=
  ["treatink_personalization_complete",
   "treatink_personalization_cancel",
   "treatink_close_modal",
   "treatink_personalization_error"]

/-- handleIframeMessage: drop messages from non-allow-listed origins;
ignore messages with falsy data or type; on completion update the
stored session, mark the button personalized, close the modal (which
fires onPersonalizationClose) and then fire onPersonalizationComplete
with the payload; on cancel or close-request close the modal; on error
alert and close; ignore every other type. -/
def handleIframeMessage (config : Config) (st : WidgetState)
    (event : MessageEvent) (now : Nat) : WidgetState :=
  if isAllowedOrigin event.origin = false then st
  else
    match event.data with
    | none => st
    | some data =>
      if data.type = "" then st
      else if data.type = "treatink_personalization_complete" then
        let st1 := { st with
          storage := updatePersonalizationSession st.storage config.productId data.payload now }
        let st2 := { st1 with buttonPersonalized := true }
        let st3 := closeCustomizer config st2
        if config.hasOnPersonalizationComplete then
          { st3 with completeCalls := st3.completeCalls ++ [data.payload] }
        else st3
      else if data.type = "treatink_personalization_cancel" then
        closeCustomizer config st
      else if data.type = "treatink_close_modal" then
        closeCustomizer config st
      else if data.type = "treatink_personalization_error" then
        closeCustomizer config { st with alerts := st.alerts + 1 }
      else st

/-- A well-formed completion message from the production surface
origin carrying the given payload. -/
def completedMessage (payload : String) : MessageEvent :=
  { origin := "https://treatink.com"
    data := some { type := "treatink_personalization_complete", payload := payload, error := "" } }

/-- Response of the single create-session round trip: a transport
failure or non-2xx response is networkError (the thrown Error); ok
carries the sessionUuid of the 2xx JSON body, with the empty string
modelling a body whose sessionUuid is missing or falsy. -/
inductive CreateSessionResponse where
  | networkError (message : String)
  | ok (sessionUuid : String)

deriving instance DecidableEq, Repr for CreateSessionResponse

/-- createPersonalizationSession: POST create-personalization-session;
on a non-2xx or transport failure the Error propagates; a 2xx body
without sessionUuid also throws; otherwise the fresh session (with
customized false) is saved to storage and returned. -/
def createPersonalizationSession (config : Config) (storage : RawStorage)
    (response : CreateSessionResponse) (now : Nat) :
    Except String (Session × RawStorage) :=
  match response with
  | .networkError message => .error message
  | .ok sessionUuid =>
      if sessionUuid = "" then .error "Invalid response: missing sessionUuid"
      else
        let session : Session :=
          { uuid := sessionUuid
            productId := config.productId
            platform := config.platform
            hostname := config.hostname
            createdAt := now
            customized := false
            customizationData := none
            updatedAt := none }
        .ok (session, savePersonalizationSession storage config.productId session)

/-- The session-acquisition step of openCustomizer: reuse the stored
session when it exists and has a truthy uuid, otherwise create one
remotely. -/
def acquireSession (config : Config) (storage : RawStorage)
    (response : CreateSessionResponse) (now : Nat) :
    Except String (Session × RawStorage) :=
  match getPersonalizationSession storage config.productId with
  | some session =>
      if session.uuid = "" then createPersonalizationSession config storage response now
      else .ok (session, storage)
  | none => createPersonalizationSession config storage response now

/-- The environment-specific customizer base URL. -/
def customizeUrl (config : Config) : String :=
  if config.environment = "sandbox" then "https://staging.treatink.com/customizer"
  else "https://treatink.com/customizer"

/-- The iframe launch URL: customizer base URL with uuid, platform,
productId, hostname and environment as query parameters
(percent-encoding elided). -/
def iframeUrl (config : Config) (uuid : String) : String :=
  customizeUrl config ++ "?apiMode=true&uuid=" ++ uuid
    ++ "&platform=" ++ config.platform
    ++ "&productId=" ++ config.productId
    ++ "&hostname=" ++ config.hostname
    ++ "&environment=" ++ config.environment

/-- The synchronous prefix of openCustomizer, executed before the
await on session acquisition: disable the button, activate the modal
overlay, hide body overflow, keep the iframe hidden and show the
loading indicator. -/
def openCustomizerShowLoading (st : WidgetState) : WidgetState :=
  { st with
    buttonDisabled := true
    modalActive := true
    bodyOverflowHidden := true
    iframeVisible := false
    loadingVisible := true }

/-- The continuation of openCustomizer after session acquisition
resolves: on success assign the iframe src (the iframe becomes visible
only later, on its load event or the 10s fail-open timeout, which are
outside this step); on failure alert and close the modal; the finally
block re-enables the button in both cases. -/
def openCustomizerResolve (config : Config) (st : WidgetState)
    (response : CreateSessionResponse) (now : Nat) : WidgetState :=
  match acquireSession config st.storage response now with
  | .ok (session, storage) =>
      { st with
        storage := storage
        iframeSrc := some (iframeUrl config session.uuid)
        buttonDisabled := false }
  | .error _ =>
      let st1 := closeCustomizer config { st with alerts := st.alerts + 1 }
      { st1 with buttonDisabled := false }

/-- openCustomizer as a whole: the synchronous modal-showing prefix
followed by the post-acquisition continuation. -/
def openCustomizer (config : Config) (st : WidgetState)
    (response : CreateSessionResponse) (now : Nat) : WidgetState :=
  openCustomizerResolve config (openCustomizerShowLoading st) response now

/-- The add-to-cart form: the value of the note input or textarea when
one is present (a hidden note input created by the shopify adapter is
found by later note queries, so it also lives here), and the other
hidden inputs appended to the form, in order. -/
structure Form where
  noteValue : Option String
  hiddenFields : List (String × String)

deriving instance DecidableEq, Repr for Form

/-- The personalization record built at injection time from the
session and the configuration. -/
structure PersonalizationData where
  uuid : String
  productId : String
  hostname : String
  timestamp : Nat

deriving instance DecidableEq, Repr for PersonalizationData

/-- The structured note line of the shopify adapter. -/
def shopifyNote (data : PersonalizationData) : String :=
  "TreatInk-UUID:" ++ data.uuid ++ "|ProductID:" ++ data.productId
    ++ "|Hostname:" ++ data.hostname

/-- addToShopifyCart: append the note line to an existing non-empty
note value after a newline, replace an empty one, or create a hidden
note input holding the line when no note field exists. -/
def addToShopifyCart (form : Form) (data : PersonalizationData) : Form :=
  match form.noteValue with
  | some existingNote =>
      let newNote : String :=
        if existingNote = "" then shopifyNote data
        else existingNote ++ "\n" ++ shopifyNote data
      { form with noteValue := some newNote }
  | none => { form with noteValue := some (shopifyNote data) }

/-- addToWooCommerceCart: append a hidden treatink_uuid input carrying
the raw session identifier. -/
def addToWooCommerceCart (form : Form) (data : PersonalizationData) : Form :=
  { form with hiddenFields := form.hiddenFields ++ [("treatink_uuid", data.uuid)] }

/-- JSON.stringify of the personalization record, modelled as an
injective plain-text serialization of its fields. -/
def stringifyPersonalizationData (data : PersonalizationData) : String :=
  "uuid=" ++ data.uuid ++ ";productId=" ++ data.productId
    ++ ";hostname=" ++ data.hostname ++ ";timestamp=" ++ toString data.timestamp

/-- addToGenericCart: append a hidden treatink_personalization input
carrying the serialized record. -/
def addToGenericCart (form : Form) (data : PersonalizationData) : Form :=
  { form with hiddenFields :=
      form.hiddenFields ++ [("treatink_personalization", stringifyPersonalizationData data)] }

/-- addPersonalizationToCart: build the personalization record and
dispatch on the platform tag. -/
def addPersonalizationToCart (config : Config) (form : Form)
    (session : Session) (now : Nat) : Form :=
  let data : PersonalizationData :=
    { uuid := session.uuid
      productId := config.productId
      hostname := config.hostname
      timestamp := now }
  if config.platform = "shopify" then addToShopifyCart form data
  else if config.platform = "woocommerce" then addToWooCommerceCart form data
  else addToGenericCart form data

/-- The submit listener installed by interceptAddToCart: on each form
submission, read the session for the configured product; if it is
absent or not customized do nothing, otherwise inject. -/
def submitForm (config : Config) (storage : RawStorage) (form : Form)
    (now : Nat) : Form :=
  match getPersonalizationSession storage config.productId with
  | none => form
  | some session =>
      if session.customized then addPersonalizationToCart config form session now
      else form

/-- Response of the single confirm-order round trip. -/
inductive ConfirmOrderResponse where
  | networkError (message : String)
  | ok (result : String)

deriving instance DecidableEq, Repr for ConfirmOrderResponse

/-- What confirmOrder does for the caller: return null (missing apiKey
or nothing to confirm), return the parsed result, or throw. -/
inductive ConfirmOrderOutcome where
  | nullResult
  | confirmed (result : String)
  | thrown (message : String)

deriving instance DecidableEq, Repr for ConfirmOrderOutcome

/-- The personalizedItems collection of confirmOrder: the customized
sessions of the store, projected to uuid and productId. -/
def allCompletedItems (storage : RawStorage) : List (String × String) :=
  ((getAllPersonalizations storage).filter (fun entry => entry.2.customized)).map
    (fun entry => (entry.2.uuid, entry.2.productId))

/-- confirmOrder: require an apiKey (else return null without any
network call); collect the customized sessions (none: return null
without any network call); otherwise POST external-order, and on
success clear the whole store and return the result, on failure throw
and leave the store untouched. The Bool records whether the network
was called. -/
def confirmOrder (config : Config) (storage : RawStorage)
    (response : ConfirmOrderResponse) : ConfirmOrderOutcome × RawStorage × Bool :=
  match config.apiKey with
  | none => (.nullResult, storage, false)
  | some _ =>
      if (allCompletedItems storage).length = 0 then (.nullResult, storage, false)
      else
        match response with
        | .ok result => (.confirmed result, clearPersonalizations storage, true)
        | .networkError message => (.thrown message, storage, true)

/-- The widget operations that can run after setup on a page:
delivery of a window message, an explicit close, a re-open of the
customizer, and a purchase-form submission. -/
inductive WidgetOp where
  | message (event : MessageEvent) (now : Nat)
  | close
  | openCustomizer (response : CreateSessionResponse) (now : Nat)
  | submit (now : Nat)

/-- The page as a whole: widget state plus the add-to-cart form. -/
structure PageState where
  widget : WidgetState
  form : Form

deriving instance DecidableEq, Repr for PageState

/-- One step of the widget: each operation updates the page through
the corresponding source function. -/
def applyOp (config : Config) (op : WidgetOp) (page : PageState) : PageState :=
  match op with
  | .message event now =>
      { page with widget := handleIframeMessage config page.widget event now }
  | .close => { page with widget := closeCustomizer config page.widget }
  | .openCustomizer response now =>
      { page with widget := openCustomizer config page.widget response now }
  | .submit now =>
      { page with form := submitForm config page.widget.storage page.form now }

/-! Concrete fixtures used by witnesses and counterexamples. -/

/-- A shopify configuration for product 42, with an apiKey and both
callbacks-of-interest configured. -/
def config0 : Config :=
  { platform := "shopify"
    productId := "42"
    apiKey := some "key-123"
    hostname := "shop.example.com"
    environment := "production"
    hasOnPersonalizationComplete := true
    hasOnPersonalizationClose := false }

/-- A freshly created, not yet customized session for product 42. -/
def session0 : Session :=
  { uuid := "abc"
    productId := "42"
    platform := "shopify"
    hostname := "shop.example.com"
    createdAt := 0
    customized := false
    customizationData := none
    updatedAt := none }

/-- The same session after a completed customization with payload P. -/
def sessionDone : Session :=
  { session0 with customized := true, customizationData := some "P", updatedAt := some 1 }

/-- Storage holding only the uncustomized session for product 42. -/
def storage0 : RawStorage := .valid [("42", session0)]

/-- Storage holding only the customized session for product 42. -/
def storage1 : RawStorage := .valid [("42", sessionDone)]

/-- The page state right after setup: no modal, no iframe src, no
callback invocations. -/
def freshWidgetState (storage : RawStorage) : WidgetState :=
  { storage := storage
    modalActive := false
    bodyOverflowHidden := false
    iframeSrc := none
    iframeVisible := false
    loadingVisible := false
    buttonDisabled := false
    buttonPersonalized := false
    completeCalls := []
    closeCalls := 0
    alerts := 0 }

/-- An add-to-cart form with no note field and no hidden inputs. -/
def emptyForm : Form := { noteValue := none, hiddenFields := [] }

/-! Helper lemmas shared by the claim theorems. -/

theorem storeGet_storeSet (l : List (String × Session)) (pid : String) (s : Session) :
    storeGet (storeSet l pid s) pid = some s := by
  induction l with
  | nil => simp [storeSet, storeGet]
  | cons head tail ih =>
      obtain ⟨k, v⟩ := head
      by_cases h : k = pid
      · simp [storeSet, storeGet, h]
      · simp [storeSet, storeGet, h, ih]

theorem getPersonalizationSession_update (storage : RawStorage) (pid : String)
    (data : String) (now : Nat) (s : Session)
    (h : getPersonalizationSession storage pid = some s) :
    getPersonalizationSession (updatePersonalizationSession storage pid data now) pid =
      some { s with customized := true, customizationData := some data, updatedAt := some now } := by
  cases storage with
  | absent => simp [getPersonalizationSession, parseStorage] at h
  | corrupt => simp [getPersonalizationSession, parseStorage] at h
  | valid sessions =>
      have hs : storeGet sessions pid = some s := by
        simpa [getPersonalizationSession, parseStorage] using h
      simp [updatePersonalizationSession, getPersonalizationSession, parseStorage, hs,
        savePersonalizationSession, storeGet_storeSet]

/-! Claim theorems. -/

/-- C9: for every stored value under the persistence key on which
JSON.parse fails, both read operations treat the data as absent: the
per-product read returns null and getAllPersonalizations returns the
empty mapping, and neither throws (both are total functions here). -/
theorem malformed_storage_fail_open (storage : RawStorage) (e : String) (pid : String)
    (h : parseStorage storage = .error e) :
    getPersonalizationSession storage pid = none ∧ getAllPersonalizations storage = [] := by
  cases storage with
  | absent => simp [parseStorage] at h
  | valid sessions => simp [parseStorage] at h
  | corrupt => exact ⟨rfl, rfl⟩

/-- Witness for C9: corrupt storage read for product 42. -/
theorem malformed_storage_fail_open_witness :
    getPersonalizationSession .corrupt "42" = none ∧ getAllPersonalizations .corrupt = [] :=
  malformed_storage_fail_open .corrupt "SyntaxError: unexpected token in JSON" "42" rfl

/-- C7: when the store holds no session with customized true,
confirmOrder performs no network call, returns null (the
nothing-to-confirm result, not an error) and leaves the store
unchanged, whatever the network would have answered. -/
theorem confirmOrder_empty_nothing_to_confirm (config : Config) (storage : RawStorage)
    (response : ConfirmOrderResponse)
    (h : (getAllPersonalizations storage).filter (fun entry => entry.2.customized) = []) :
    confirmOrder config storage response = (.nullResult, storage, false) := by
  have hitems : allCompletedItems storage = [] := by simp [allCompletedItems, h]
  cases hk : config.apiKey with
  | none => simp [confirmOrder, hk]
  | some k => simp [confirmOrder, hk, hitems]

/-- Witness for C7: a store holding only an uncustomized session. -/
theorem confirmOrder_empty_nothing_to_confirm_witness :
    confirmOrder config0 storage0 (.ok "r") = (.nullResult, storage0, false) :=
  confirmOrder_empty_nothing_to_confirm config0 storage0 (.ok "r") (by decide)

/-- C8: with an apiKey configured and a non-empty completed set, a
successful confirm-order call clears the entire persisted store (the
key is removed, so every entry is gone), while a NetworkError leaves
the store completely untouched and surfaces as a thrown error. -/
theorem confirmOrder_success_clears_failure_keeps (config : Config) (storage : RawStorage)
    (k result message : String)
    (hkey : config.apiKey = some k)
    (hne : (getAllPersonalizations storage).filter (fun entry => entry.2.customized) ≠ []) :
    confirmOrder config storage (.ok result) = (.confirmed result, .absent, true) ∧
    getAllPersonalizations (confirmOrder config storage (.ok result)).2.1 = [] ∧
    confirmOrder config storage (.networkError message) = (.thrown message, storage, true) := by
  have hitems : allCompletedItems storage ≠ [] := by
    intro h0
    exact hne (List.map_eq_nil_iff.mp h0)
  have hlen : (allCompletedItems storage).length ≠ 0 := by
    intro h0
    exact hitems (List.length_eq_zero.mp h0)
  refine ⟨?_, ?_, ?_⟩ <;>
    simp [confirmOrder, hkey, hlen, clearPersonalizations, getAllPersonalizations, parseStorage]

/-- Witness for C8: a store holding one customized session. -/
theorem confirmOrder_success_clears_failure_keeps_witness :
    confirmOrder config0 storage1 (.ok "r") = (.confirmed "r", .absent, true) ∧
    getAllPersonalizations (confirmOrder config0 storage1 (.ok "r")).2.1 = [] ∧
    confirmOrder config0 storage1 (.networkError "down") = (.thrown "down", storage1, true) :=
  confirmOrder_success_clears_failure_keeps config0 storage1 "key-123" "r" "down"
    (by decide) (by decide)

/-- C4: a message whose origin matches no allow-list entry (by exact
or startsWith match) leaves the whole widget state unchanged, even
when its payload is a well-formed completed message; and a message
from an allow-listed origin whose type is none of the four recognized
types also leaves the whole widget state unchanged. -/
theorem handleIframeMessage_ignores_untrusted_and_unknown (config : Config) (st : WidgetState)
    (event : MessageEvent) (now : Nat)
    (h : isAllowedOrigin event.origin = false ∨
         ∀ d, event.data = some d → d.type ∉ recognizedTypes) :
    handleIframeMessage config st event now = st := by
  rcases h with h | h
  · simp [handleIframeMessage, h]
  · cases hA : isAllowedOrigin event.origin with
    | false => simp [handleIframeMessage, hA]
    | true =>
        cases hd : event.data with
        | none => simp [handleIframeMessage, hd]
        | some d =>
            have hn := h d hd
            simp [recognizedTypes] at hn
            obtain ⟨h1, h2, h3, h4⟩ := hn
            by_cases h0 : d.type = ""
            · simp [handleIframeMessage, hd, hA, h0]
            · simp [handleIframeMessage, hd, hA, h0, h1, h2, h3, h4]

/-- Witness for C4: a well-formed completed message from an evil
origin is dropped with no state change. -/
theorem handleIframeMessage_ignores_untrusted_and_unknown_witness :
    handleIframeMessage config0 (freshWidgetState storage0)
      { origin := "https://evil.example"
        data := some { type := "treatink_personalization_complete", payload := "P", error := "" } }
      7 = freshWidgetState storage0 :=
  handleIframeMessage_ignores_untrusted_and_unknown config0 (freshWidgetState storage0)
    { origin := "https://evil.example"
      data := some { type := "treatink_personalization_complete", payload := "P", error := "" } }
    7 (.inl (by decide))

/-- C10: a completed message from an allow-listed origin arriving
while no session is stored for the configured product leaves the
persisted store unchanged, yet still invokes
onPersonalizationComplete with the payload, switches the button to
the personalized state and closes the modal. -/
theorem completed_without_stored_session (config : Config) (st : WidgetState)
    (p : String) (now : Nat)
    (hnone : getPersonalizationSession st.storage config.productId = none)
    (hcb : config.hasOnPersonalizationComplete = true) :
    (handleIframeMessage config st (completedMessage p) now).storage = st.storage ∧
    (handleIframeMessage config st (completedMessage p) now).completeCalls =
      st.completeCalls ++ [p] ∧
    (handleIframeMessage config st (completedMessage p) now).buttonPersonalized = true ∧
    (handleIframeMessage config st (completedMessage p) now).modalActive = false := by
  have hupd : updatePersonalizationSession st.storage config.productId p now = st.storage := by
    simp [updatePersonalizationSession, hnone]
  have hA : isAllowedOrigin "https://treatink.com" = true := by decide
  refine ⟨?_, ?_, ?_, ?_⟩ <;>
    simp [handleIframeMessage, completedMessage, hA, hupd, hcb, closeCustomizer]

/-- Witness for C10: completed message for product 42 on an empty
store. -/
theorem completed_without_stored_session_witness :
    (handleIframeMessage config0 (freshWidgetState .absent) (completedMessage "P") 3).storage =
      (freshWidgetState .absent).storage ∧
    (handleIframeMessage config0 (freshWidgetState .absent) (completedMessage "P") 3).completeCalls =
      (freshWidgetState .absent).completeCalls ++ ["P"] ∧
    (handleIframeMessage config0 (freshWidgetState .absent)
      (completedMessage "P") 3).buttonPersonalized = true ∧
    (handleIframeMessage config0 (freshWidgetState .absent) (completedMessage "P") 3).modalActive =
      false :=
  completed_without_stored_session config0 (freshWidgetState .absent) "P" 3 rfl rfl

/-- C1 counterexample: on a run of openCustomizer with an empty store
whose create-session call fails with a NetworkError, the synchronous
prefix of openCustomizer has already activated the modal overlay while
no session exists for the configured product, so part of the surface
is exposed before createSession succeeded, and surface was shown on a
NetworkError run; the third conjunct records that this prefix is
exactly the stage openCustomizer goes through on that run. -/
theorem modal_shown_before_session_ack :
    (openCustomizerShowLoading (freshWidgetState .absent)).modalActive = true ∧
    getPersonalizationSession (openCustomizerShowLoading (freshWidgetState .absent)).storage
      "42" = none ∧
    openCustomizer config0 (freshWidgetState .absent) (.networkError "connection refused") 0 =
      openCustomizerResolve config0 (openCustomizerShowLoading (freshWidgetState .absent))
        (.networkError "connection refused") 0 :=
  ⟨rfl, rfl, rfl⟩

/-- C1 amended: openCustomizer immediately shows the modal shell with
its loading indicator, but the iframe itself stays hidden and keeps
its previous src during acquisition; when no session is stored for
the configured product and createSession fails with a NetworkError,
the iframe never receives the customizer URL, the modal is closed
again and the store is unchanged. -/
theorem openCustomizer_networkError_no_iframe (config : Config) (st : WidgetState)
    (message : String) (now : Nat)
    (hnone : getPersonalizationSession st.storage config.productId = none) :
    (openCustomizerShowLoading st).iframeVisible = false ∧
    (openCustomizerShowLoading st).iframeSrc = st.iframeSrc ∧
    (openCustomizer config st (.networkError message) now).modalActive = false ∧
    (openCustomizer config st (.networkError message) now).iframeSrc = some "about:blank" ∧
    (openCustomizer config st (.networkError message) now).storage = st.storage := by
  have hacq : acquireSession config st.storage (.networkError message) now = .error message := by
    simp [acquireSession, hnone, createPersonalizationSession]
  refine ⟨rfl, rfl, ?_, ?_, ?_⟩ <;>
    simp [openCustomizer, openCustomizerResolve, hacq, closeCustomizer, openCustomizerShowLoading]

/-- Witness for the amended C1: empty store, failing create call. -/
theorem openCustomizer_networkError_no_iframe_witness :
    (openCustomizerShowLoading (freshWidgetState .absent)).iframeVisible = false ∧
    (openCustomizerShowLoading (freshWidgetState .absent)).iframeSrc =
      (freshWidgetState .absent).iframeSrc ∧
    (openCustomizer config0 (freshWidgetState .absent) (.networkError "down") 0).modalActive =
      false ∧
    (openCustomizer config0 (freshWidgetState .absent) (.networkError "down") 0).iframeSrc =
      some "about:blank" ∧
    (openCustomizer config0 (freshWidgetState .absent) (.networkError "down") 0).storage =
      (freshWidgetState .absent).storage :=
  openCustomizer_networkError_no_iframe config0 (freshWidgetState .absent) "down" 0 rfl

/-- C5 counterexample: for the customized session with uuid abc on
product 42 and hostname shop.example.com, the note injected on a
shopify submission is the TreatInk-UUID line, which is not the claimed
ID-Product-Host line and does not even start with the prefix ID: for
any decomposition. -/
theorem shopify_note_format_differs :
    (submitForm config0 storage1 emptyForm 5).noteValue =
      some "TreatInk-UUID:abc|ProductID:42|Hostname:shop.example.com" ∧
    (submitForm config0 storage1 emptyForm 5).noteValue ≠
      some "ID:abc|Product:42|Host:shop.example.com" ∧
    strStartsWith ((submitForm config0 storage1 emptyForm 5).noteValue.getD "") "ID:" = false :=
  ⟨by decide, by decide, by decide⟩

/-- C5 amended: on a shopify submission with a stored customized
session, the injected note line has exactly the format
TreatInk-UUID:sessionId, ProductID:productId and Hostname:hostname
separated by vertical bars; it becomes the whole note value when no
note field exists or the existing note is empty, and is appended after
a newline otherwise; no hidden field is added by the shopify path. -/
theorem shopify_note_injection (config : Config) (storage : RawStorage) (form : Form)
    (s : Session) (now : Nat)
    (hplat : config.platform = "shopify")
    (hget : getPersonalizationSession storage config.productId = some s)
    (hcust : s.customized = true) :
    (submitForm config storage form now).noteValue =
      some (match form.noteValue with
            | none => "TreatInk-UUID:" ++ s.uuid ++ "|ProductID:" ++ config.productId
                ++ "|Hostname:" ++ config.hostname
            | some v =>
                if v = "" then
                  "TreatInk-UUID:" ++ s.uuid ++ "|ProductID:" ++ config.productId
                    ++ "|Hostname:" ++ config.hostname
                else
                  v ++ "\n" ++ ("TreatInk-UUID:" ++ s.uuid ++ "|ProductID:" ++ config.productId
                    ++ "|Hostname:" ++ config.hostname)) ∧
    (submitForm config storage form now).hiddenFields = form.hiddenFields := by
  cases hnv : form.noteValue with
  | none =>
      simp [submitForm, hget, hcust, addPersonalizationToCart, hplat, addToShopifyCart,
        shopifyNote, hnv]
  | some v =>
      by_cases hv : v = "" <;>
        simp [submitForm, hget, hcust, addPersonalizationToCart, hplat, addToShopifyCart,
          shopifyNote, hnv, hv]

/-- Witness for the amended C5: customized session abc on product 42,
form without a note field. -/
theorem shopify_note_injection_witness :
    (submitForm config0 storage1 emptyForm 5).noteValue =
      some (match emptyForm.noteValue with
            | none => "TreatInk-UUID:" ++ sessionDone.uuid ++ "|ProductID:" ++ config0.productId
                ++ "|Hostname:" ++ config0.hostname
            | some v =>
                if v = "" then
                  "TreatInk-UUID:" ++ sessionDone.uuid ++ "|ProductID:" ++ config0.productId
                    ++ "|Hostname:" ++ config0.hostname
                else
                  v ++ "\n" ++ ("TreatInk-UUID:" ++ sessionDone.uuid ++ "|ProductID:"
                    ++ config0.productId ++ "|Hostname:" ++ config0.hostname)) ∧
    (submitForm config0 storage1 emptyForm 5).hiddenFields = emptyForm.hiddenFields :=
  shopify_note_injection config0 storage1 emptyForm sessionDone 5 rfl (by decide) rfl

/-- C6 evaluated at the failing input: submitting the same shopify
form twice for the same customized session leaves the note line twice,
not once, because each submission appends the line again; the second
conjunct records the single-submission note for comparison. -/
theorem shopify_double_submit_duplicates_note :
    (submitForm config0 storage1 (submitForm config0 storage1 emptyForm 5) 6).noteValue =
      some ("TreatInk-UUID:abc|ProductID:42|Hostname:shop.example.com\nTreatInk-UUID:abc|ProductID:42|Hostname:shop.example.com") ∧
    (submitForm config0 storage1 emptyForm 5).noteValue =
      some "TreatInk-UUID:abc|ProductID:42|Hostname:shop.example.com" :=
  ⟨by decide, by decide⟩

/-- C3 evaluated at the failing input: delivering the same completed
message with payload P twice from the production origin invokes
onPersonalizationComplete twice, once per message, although the
stored session itself ends uncorrupted with customized true and the
payload attached. -/
theorem completed_twice_fires_callback_twice :
    (handleIframeMessage config0
      (handleIframeMessage config0 (freshWidgetState storage0) (completedMessage "P") 1)
      (completedMessage "P") 2).completeCalls = ["P", "P"] ∧
    getPersonalizationSession
      (handleIframeMessage config0
        (handleIframeMessage config0 (freshWidgetState storage0) (completedMessage "P") 1)
        (completedMessage "P") 2).storage "42" =
      some { session0 with
        customized := true
        customizationData := some "P"
        updatedAt := some 2 } :=
  ⟨by decide, by decide⟩

/-- C2: once the stored session of the configured product is
customized, every subsequent widget operation, that is delivery of any
window message (completed, cancelled, close-requested, error,
unrecognized, or untrusted), an explicit close, a re-open of the
customizer and a form submission, leaves a stored session for that
product whose customized flag is still true. -/
theorem customized_monotonic (config : Config) (op : WidgetOp) (page : PageState) (s : Session)
    (hget : getPersonalizationSession page.widget.storage config.productId = some s)
    (huuid : s.uuid ≠ "")
    (hcust : s.customized = true) :
    ∃ t : Session,
      getPersonalizationSession (applyOp config op page).widget.storage config.productId =
        some t ∧
      t.customized = true := by
  cases op with
  | close => exact ⟨s, by simpa [applyOp, closeCustomizer] using hget, hcust⟩
  | submit now => exact ⟨s, by simpa [applyOp] using hget, hcust⟩
  | openCustomizer response now =>
      refine ⟨s, ?_, hcust⟩
      have hacq : acquireSession config page.widget.storage response now =
          .ok (s, page.widget.storage) := by
        simp [acquireSession, hget, huuid]
      simpa [applyOp, openCustomizer, openCustomizerResolve, hacq,
        openCustomizerShowLoading] using hget
  | message event now =>
      cases hA : isAllowedOrigin event.origin with
      | false => exact ⟨s, by simpa [applyOp, handleIframeMessage, hA] using hget, hcust⟩
      | true =>
          cases hd : event.data with
          | none => exact ⟨s, by simpa [applyOp, handleIframeMessage, hA, hd] using hget, hcust⟩
          | some d =>
              by_cases h0 : d.type = ""
              · exact ⟨s, by simpa [applyOp, handleIframeMessage, hA, hd, h0] using hget, hcust⟩
              · by_cases hC : d.type = "treatink_personalization_complete"
                · refine ⟨{ s with
                      customized := true
                      customizationData := some d.payload
                      updatedAt := some now }, ?_, rfl⟩
                  have hupd := getPersonalizationSession_update page.widget.storage
                    config.productId d.payload now s hget
                  cases hcb : config.hasOnPersonalizationComplete <;>
                    simpa [applyOp, handleIframeMessage, hA, hd, h0, hC, hcb,
                      closeCustomizer] using hupd
                · by_cases hX : d.type = "treatink_personalization_cancel"
                  · exact ⟨s, by simpa [applyOp, handleIframeMessage, hA, hd, h0, hC, hX,
                      closeCustomizer] using hget, hcust⟩
                  · by_cases hM : d.type = "treatink_close_modal"
                    · exact ⟨s, by simpa [applyOp, handleIframeMessage, hA, hd, h0, hC, hX, hM,
                        closeCustomizer] using hget, hcust⟩
                    · by_cases hE : d.type = "treatink_personalization_error"
                      · exact ⟨s, by simpa [applyOp, handleIframeMessage, hA, hd, h0, hC, hX, hM,
                          hE, closeCustomizer] using hget, hcust⟩
                      · exact ⟨s, by simpa [applyOp, handleIframeMessage, hA, hd, h0, hC, hX, hM,
                          hE] using hget, hcust⟩

/-- Witness for C2: a cancelled message arriving after the session of
product 42 was customized leaves it customized. -/
theorem customized_monotonic_witness :
    ∃ t : Session,
      getPersonalizationSession
        (applyOp config0
          (.message
            { origin := "https://treatink.com"
              data := some { type := "treatink_personalization_cancel", payload := "", error := "" } }
            9)
          { widget := freshWidgetState storage1, form := emptyForm }).widget.storage
        config0.productId = some t ∧
      t.customized = true :=
  customized_monotonic config0
    (.message
      { origin := "https://treatink.com"
        data := some { type := "treatink_personalization_cancel", payload := "", error := "" } }
      9)
    { widget := freshWidgetState storage1, form := emptyForm } sessionDone
    (by decide) (by decide) rfl

end TreatInk
